import Mathlib

/-!
# Ordering subsystem of iroha: transaction responses, ordering wiring, on-demand client

Shallow embedding of

* shared_model/backend/protobuf/transaction_responses/proto_tx_response.hpp
  (the response variant, priority and comparePriorities),
* irohad/main/impl/ordering_init.cpp (createGate, createService, initOrderingGate),
* the on-demand ordering client exercised by
  test/module/irohad/ordering/on_demand_os_client_grpc_test.cpp.
-/

namespace shared_model.proto

/-! ## proto_tx_response.hpp -/

/-- Concrete transaction responses, the alternatives of ProtoResponseVariantType. -/
inductive TxResponse where
  | StatelessFailedTxResponse
  | StatelessValidTxResponse
  | StatefulFailedTxResponse
  | StatefulValidTxResponse
  | CommittedTxResponse
  | MstExpiredResponse
  | NotReceivedTxResponse
  | MstPendingResponse
  | MstPassedResponse
  deriving DecidableEq, Repr

open TxResponse

/-- Type list of the variant (ProtoResponseVariantType::types), in declaration order. -/
def ProtoResponseListType : List TxResponse :=
  [StatelessFailedTxResponse,
   StatelessValidTxResponse,
   StatefulFailedTxResponse,
   StatefulValidTxResponse,
   CommittedTxResponse,
   MstExpiredResponse,
   NotReceivedTxResponse,
   MstPendingResponse,
   MstPassedResponse]

/-- The constant last of the variant initialiser:
boost::mpl::size<ProtoResponseListType>::type::value - 1. -/
def last : Nat := ProtoResponseListType.length - 1

/-- Wire message iroha::protocol::ToriiResponse as far as the response class reads it. -/
structure ToriiResponse where
  tx_status : Nat
  tx_hash : List Nat
  error_message : String
  deriving DecidableEq, Repr

/-- Modelled from the spec: the variant loader variant_impl<S>::load of
utils/variant_deserializer.hpp is not among the sources. It walks the type list S:
index 0 builds the head type from the archive, any other index recurses into the tail
with the index decremented, and the empty list holds no type to build. -/
def variant_impl_load : List TxResponse → Nat → Option TxResponse
  | [], _ => none
  | head :: _, 0 => some head
  | _ :: tail, which + 1 => variant_impl_load tail which

/-- The index handed to the loader by the initialiser of variant_:
which > last ? last : which. -/
def loadIndex (which : Nat) : Nat :=
  if which > last then last else which

/-- The lazy initialiser of variant_. The enum descriptor lookup
GetDescriptor()->FindFieldByName("tx_status")->enum_type()->FindValueByNumber(n)->index()
comes from the generated schema code and is the parameter index. -/
def loadVariant (index : Nat → Nat) (ar : ToriiResponse) : Option TxResponse :=
  let which := index ar.tx_status
  variant_impl_load ProtoResponseListType (loadIndex which)

/-- The visitor of priority(): one rank per concrete response. -/
def rank : TxResponse → Int
  | StatelessValidTxResponse => 1
  | MstPendingResponse => 2
  | MstPassedResponse => 3
  | StatefulValidTxResponse => 4
  | CommittedTxResponse => 5
  | StatelessFailedTxResponse => 6
  | StatefulFailedTxResponse => 7
  | MstExpiredResponse => 8
  | NotReceivedTxResponse => 9

/-- The class TransactionResponse: the wrapped wire message proto_ together with the
materialised variant_ (the value the lazy initialiser produced for that message). -/
structure TransactionResponse (index : Nat → Nat) where
  proto_ : ToriiResponse
  variant_ : TxResponse
  variant_loaded : loadVariant index proto_ = some variant_

namespace TransactionResponse

variable {index : Nat → Nat}

/-- The member priority(): visit_in_place over the variant. -/
def priority (r : TransactionResponse index) : Int :=
  rank r.variant_

/-- The member comparePriorities(other). -/
def comparePriorities (self other : TransactionResponse index) : Int :=
  if self.priority < other.priority then
    -1
  else if self.priority = other.priority then
    0
  else
    1

/-- The member errorMessage(). -/
def errorMessage (r : TransactionResponse index) : String :=
  r.proto_.error_message

end TransactionResponse

/-- Construction of a TransactionResponse from a wire message; the variant is the one
the lazy initialiser loads. It is absent exactly when the loader finds no type. -/
def mkTransactionResponse (index : Nat → Nat) (ar : ToriiResponse) :
    Option (TransactionResponse index) :=
  match h : loadVariant index ar with
  | some v => some ⟨ar, v, h⟩
  | none => none

end shared_model.proto

namespace iroha.network

/-! ## ordering_init.cpp -/

/-- Ways a call of the wiring code can end without a result. -/
inductive Failure where
  | bad_optional_access
  | null_dereference
  deriving DecidableEq, Repr

/-- What the language defines for a call: a defined result, or nothing at all (the call
breaks a precondition of the library, and no result, failure or state is defined). -/
inductive Behaviour (α : Type) where
  | defined (result : α)
  | undefined
  deriving DecidableEq, Repr

/-- Modelled from the spec: the record model::Peer is declared outside the sources;
each peer exposes an address (next to its key). -/
structure Peer where
  address : String
  pubkey : List Nat
  deriving DecidableEq, Repr

/-- Modelled from the spec: the interface ametsuchi::PeerQuery is declared outside the
sources; getLedgerPeers() yields an optional sequence of peers, here the value it
yields when the wiring code asks. -/
structure PeerQuery where
  getLedgerPeers : Option (List Peer)
  deriving DecidableEq, Repr

/-- Object references (shared pointers): positions in the object store. -/
abbrev Ref := Nat

/-- Modelled from the spec: the transport classes (the interface OrderingGateTransport
and OrderingGateTransportGrpc) are declared outside the sources. A transport object is
built from a network address and keeps the gates handed to subscribe, in call order. -/
structure OrderingGateTransport where
  network_address : String
  subscribers : List Ref
  deriving DecidableEq, Repr

/-- Modelled from the spec: the class ordering::OrderingGateImpl is declared outside the
sources; a gate is constructed over a transport and keeps it. -/
structure OrderingGateImpl where
  transport : Ref
  deriving DecidableEq, Repr

/-- Modelled from the spec: the class ordering::OrderingServiceImpl is declared outside
the sources; a service is constructed from the peer query, max_size and
delay_milliseconds and keeps them. -/
structure OrderingServiceImpl where
  wsv : PeerQuery
  max_size : Nat
  delay_milliseconds : Nat
  deriving DecidableEq, Repr

/-- The object store: every transport, gate and service allocated so far. A reference
is the position of its object. -/
structure Heap where
  transports : List OrderingGateTransport
  gates : List OrderingGateImpl
  services : List OrderingServiceImpl
  deriving DecidableEq, Repr

/-- The members of OrderingInit; a shared pointer member is empty until assigned. -/
structure OrderingInit where
  ordering_gate : Option Ref
  ordering_service : Option Ref
  ordering_gate_transport : Option Ref
  deriving DecidableEq, Repr

/-- The call std::make_shared<ordering::OrderingGateImpl>(transport). -/
def make_shared_gate (h : Heap) (transport : Ref) : Ref × Heap :=
  (h.gates.length, { h with gates := h.gates ++ [{ transport := transport }] })

/-- The call std::make_shared<iroha::ordering::OrderingGateTransportGrpc>(network_address). -/
def make_shared_transport (h : Heap) (network_address : String) : Ref × Heap :=
  (h.transports.length,
   { h with transports :=
      h.transports ++ [{ network_address := network_address, subscribers := [] }] })

/-- The call std::make_shared<ordering::OrderingServiceImpl>(wsv, max_size, delay_milliseconds). -/
def make_shared_service (h : Heap) (wsv : PeerQuery) (max_size delay_milliseconds : Nat) :
    Ref × Heap :=
  (h.services.length,
   { h with services :=
      h.services ++ [{ wsv := wsv, max_size := max_size,
                       delay_milliseconds := delay_milliseconds }] })

/-- The call transport->subscribe(gate): the transport object records the gate. A
reference to no object cannot be followed. -/
def subscribe (h : Heap) (transport gate : Ref) : Except Failure Heap :=
  match h.transports[transport]? with
  | none => .error .null_dereference
  | some t =>
    .ok { h with transports :=
            h.transports.set transport { t with subscribers := t.subscribers ++ [gate] } }

/-- OrderingInit::createGate. The store after the call is returned also when the call
fails. -/
def createGate (h : Heap) (transport : Ref) : Except Failure Ref × Heap :=
  let (gate, h1) := make_shared_gate h transport
  match subscribe h1 transport gate with
  | .error e => (.error e, h1)
  | .ok h2 => (.ok gate, h2)

/-- OrderingInit::createService. -/
def createService (h : Heap) (wsv : PeerQuery) (max_size delay_milliseconds : Nat) :
    Ref × Heap :=
  make_shared_service h wsv max_size delay_milliseconds

/-- The accessor value() of an optional: an empty optional has no value. -/
def value {α : Type} : Option α → Except Failure α
  | none => .error .bad_optional_access
  | some a => .ok a

/-- The accessor front() of a vector. It is unchecked: on an empty vector the call has
no defined behaviour (it neither throws nor yields an element). -/
def front {α : Type} : List α → Behaviour α
  | [] => .undefined
  | a :: _ => .defined a

/-- The first statement of initOrderingGate:
wsv->getLedgerPeers().value().front().address. The checked accessor value() throws on an
empty optional; front() is called on the vector with no emptiness check. -/
def lookupAddress (wsv : PeerQuery) : Behaviour (Except Failure String) :=
  match value wsv.getLedgerPeers with
  | .error e => .defined (.error e)
  | .ok peers =>
    match front peers with
    | .undefined => .undefined
    | .defined peer => .defined (.ok peer.address)

/-- OrderingInit::initOrderingGate. Where the call has defined behaviour, the store and
the members after the call are returned also when the call fails. -/
def initOrderingGate (h : Heap) (self : OrderingInit) (wsv : PeerQuery)
    (max_size delay_milliseconds : Nat) :
    Behaviour (Except Failure Ref × Heap × OrderingInit) :=
  match lookupAddress wsv with
  | .undefined => .undefined
  | .defined (.error e) => .defined (.error e, h, self)
  | .defined (.ok network_address) =>
    let (t, h1) := make_shared_transport h network_address
    let self1 := { self with ordering_gate_transport := some t }
    let (s, h2) := createService h1 wsv max_size delay_milliseconds
    let self2 := { self1 with ordering_service := some s }
    match createGate h2 t with
    | (.error e, h3) => .defined (.error e, h3, self2)
    | (.ok g, h3) => .defined (.ok g, h3, { self2 with ordering_gate := some g })

end iroha.network

namespace iroha.protocol

/-! ## Wire messages read by the on-demand ordering client test -/

/-- Modelled from the spec: wire message ReducedPayload of a transaction (generated from
the schema, outside the sources); the creator identity is the field the ordering engine
reads. -/
structure ReducedPayload where
  creator_account_id : String
  created_time : Nat
  quorum : Nat
  deriving DecidableEq, Repr

/-- Modelled from the spec: wire message Payload of a transaction (outside the sources). -/
structure Payload where
  reduced_payload : ReducedPayload
  deriving DecidableEq, Repr

/-- Modelled from the spec: wire message Transaction (outside the sources): a payload
and the signatures over it. -/
structure Transaction where
  payload : Payload
  signatures : List String
  deriving DecidableEq, Repr

/-- Modelled from the spec: wire message Proposal (outside the sources): an ordered
sequence of transactions for one height. -/
structure Proposal where
  height : Nat
  transactions : List Transaction
  created_time : Nat
  deriving DecidableEq, Repr

end iroha.protocol

namespace iroha.ordering.transport

/-! ## The on-demand ordering client (on_demand_os_client_grpc) -/

/-- Modelled from the spec: RoundType, the round coordinate (block round, reject round),
a pair of non-negative integers read through first and second. -/
abbrev RoundType := Nat × Nat

/-- Modelled from the spec: wire shape of a round coordinate, two non-negative integers
block_round and reject_round. -/
structure ProposalRound where
  block_round : Nat
  reject_round : Nat
  deriving DecidableEq, Repr

/-- Modelled from the spec: message TransactionsRequest of sendBatches, a round and the
transactions sent for it. -/
structure TransactionsRequest where
  round : ProposalRound
  transactions : List iroha.protocol.Transaction
  deriving DecidableEq, Repr

/-- Modelled from the spec: message ProposalRequest of requestProposal, the round asked
for. -/
structure ProposalRequest where
  round : ProposalRound
  deriving DecidableEq, Repr

/-- Modelled from the spec: message ProposalResponse of requestProposal, which carries a
proposal or none. -/
structure ProposalResponse where
  proposal : Option iroha.protocol.Proposal
  deriving DecidableEq, Repr

/-- Modelled from the spec: outcome of a remote call, OK or a failure such as an
unreachable peer or an expired deadline. -/
inductive Status where
  | OK
  | DEADLINE_EXCEEDED
  | UNAVAILABLE
  deriving DecidableEq, Repr

/-- Modelled from the spec: the per-call context of the remote procedure call, of which
the client sets the deadline. Time points and durations are integers in one unit. -/
structure ClientContext where
  deadline : Int
  deriving DecidableEq, Repr

/-- Modelled from the spec: the model class shared_model::proto::Transaction, a wrapper
of the wire transaction, which getTransport hands back. -/
structure Transaction where
  getTransport : iroha.protocol.Transaction
  deriving DecidableEq, Repr

/-- Modelled from the spec: accessor creatorAccountId of the transaction wrapper. -/
def Transaction.creatorAccountId (tx : Transaction) : String :=
  tx.getTransport.payload.reduced_payload.creator_account_id

/-- Modelled from the spec: the model class shared_model::proto::Proposal, a wrapper of
the wire proposal. -/
structure Proposal where
  getTransport : iroha.protocol.Proposal
  deriving DecidableEq, Repr

/-- Modelled from the spec: accessor transactions of the proposal wrapper, the wrapped
transactions in their order. -/
def Proposal.transactions (p : Proposal) : List Transaction :=
  p.getTransport.transactions.map Transaction.mk

/-- Modelled from the spec: the remote stub of the ordering service as the client sees
it. RequestProposal answers a context and a request with a status and a response;
sending transactions is asynchronous and its answer is not awaited. -/
structure Stub where
  RequestProposal : ClientContext → ProposalRequest → Status × ProposalResponse

/-- Remote calls a client issues on its stub, as a mock of the stub records them. -/
inductive Call where
  | AsyncSendTransactions (request : TransactionsRequest)
  | RequestProposal (context : ClientContext) (request : ProposalRequest)
  deriving DecidableEq, Repr

/-- Modelled from the spec: the class OnDemandOsClientGrpc (its implementation file is not
among the sources, only its test): the stub, the injected time provider and the
configured timeout of proposal requests. -/
structure OnDemandOsClientGrpc where
  stub : Stub
  time_provider : Unit → Int
  proposal_request_timeout : Int

/-- Modelled from the spec: wire form of a round coordinate, block_round from the first
and reject_round from the second component. -/
def toProposalRound (round : RoundType) : ProposalRound :=
  { block_round := round.1, reject_round := round.2 }

/-- Modelled from the spec: OnDemandOsClientGrpc::onTransactions (implementation not among
the sources) forwards the collection to sendBatches, fire and forget: one asynchronous
send of a request with the round and the wire form of every transaction, in order. The
result is the list of remote calls issued. -/
def OnDemandOsClientGrpc.onTransactions (_client : OnDemandOsClientGrpc) (round : RoundType)
    (collection : List Transaction) : List Call :=
  let request : TransactionsRequest :=
    { round := toProposalRound round,
      transactions := collection.map Transaction.getTransport }
  [Call.AsyncSendTransactions request]

/-- Modelled from the spec: the context of a proposal request, its deadline the
configured timeout measured from the injected clock. -/
def OnDemandOsClientGrpc.requestContext (client : OnDemandOsClientGrpc) : ClientContext :=
  { deadline := client.time_provider () + client.proposal_request_timeout }

/-- Modelled from the spec: OnDemandOsClientGrpc::onRequestProposal (implementation not
among the sources) forwards to requestProposal with the configured timeout and surfaces
the optional result of the transport, with no retry; a call that fails or expires yields
no proposal. The result is the optional proposal and the list of remote calls issued. -/
def OnDemandOsClientGrpc.onRequestProposal (client : OnDemandOsClientGrpc)
    (round : RoundType) : Option Proposal × List Call :=
  let context := client.requestContext
  let request : ProposalRequest := { round := toProposalRound round }
  let (status, response) := client.stub.RequestProposal context request
  let calls := [Call.RequestProposal context request]
  match status with
  | Status.OK =>
    match response.proposal with
    | some proposal => (some (Proposal.mk proposal), calls)
    | none => (none, calls)
  | _ => (none, calls)

end iroha.ordering.transport

/-! ## Concrete inputs -/

namespace shared_model.proto

open TxResponse

/-- A response with status index 1; the enum descriptor maps a value to its own number. -/
def statelessValidResponse : TransactionResponse (fun n => n) :=
  ⟨{ tx_status := 1, tx_hash := [], error_message := "" }, StatelessValidTxResponse, rfl⟩

/-- A response with status index 4. -/
def committedResponse : TransactionResponse (fun n => n) :=
  ⟨{ tx_status := 4, tx_hash := [], error_message := "" }, CommittedTxResponse, rfl⟩

/-- A response with status index 8, the last position of the type list. -/
def mstPassedResponse : TransactionResponse (fun n => n) :=
  ⟨{ tx_status := 8, tx_hash := [], error_message := "" }, MstPassedResponse, rfl⟩

/-- A wire message whose status index 12 lies beyond the type list. -/
def beyondListMessage : ToriiResponse :=
  { tx_status := 12, tx_hash := [], error_message := "" }

/-- The response of the wire message with status index 12. -/
def beyondListResponse : TransactionResponse (fun n => n) :=
  ⟨beyondListMessage, MstPassedResponse, rfl⟩

end shared_model.proto

namespace iroha.network

/-- A store with one transport object and nothing subscribed to it. -/
def exampleHeap : Heap :=
  { transports := [{ network_address := "127.0.0.1:10001", subscribers := [] }],
    gates := [],
    services := [] }

/-- The store before any object is allocated. -/
def emptyHeap : Heap :=
  { transports := [], gates := [], services := [] }

/-- The members of OrderingInit before initOrderingGate is called. -/
def freshInit : OrderingInit :=
  { ordering_gate := none, ordering_service := none, ordering_gate_transport := none }

/-- A peer query over a ledger of two peers. -/
def twoPeers : PeerQuery :=
  { getLedgerPeers :=
      some [{ address := "127.0.0.1:10001", pubkey := [1] },
            { address := "127.0.0.1:10002", pubkey := [2] }] }

end iroha.network

namespace iroha.ordering.transport

/-- Fixture of the client test: a wire transaction of the given creator. -/
def testTransaction (creator : String) : iroha.protocol.Transaction :=
  { payload := { reduced_payload :=
      { creator_account_id := creator, created_time := 0, quorum := 0 } },
    signatures := [] }

/-- Fixture of the test onRequestProposal: a response whose proposal holds one
transaction created by the account test. -/
def testResponse : ProposalResponse :=
  { proposal := some { height := 0, transactions := [testTransaction "test"],
                       created_time := 0 } }

/-- Fixture of the test onRequestProposalNone: a response without proposal. -/
def testResponseNone : ProposalResponse :=
  { proposal := none }

/-- Fixture of the client test: the mock stub answers every proposal request with status
OK and the given response. -/
def testStub (response : ProposalResponse) : Stub :=
  { RequestProposal := fun _ _ => (Status.OK, response) }

/-- Fixture SetUp of the client test: a client over the mock stub, with a time provider
that returns the default time point and a timeout of one unit. -/
def testClient (response : ProposalResponse) : OnDemandOsClientGrpc :=
  { stub := testStub response, time_provider := fun _ => 0, proposal_request_timeout := 1 }

end iroha.ordering.transport

/-! ## Properties of the transaction response -/

namespace shared_model.proto

open TxResponse

/-- The loader picks the type at the given position of the type list. -/
theorem variant_impl_load_eq_getElem? (S : List TxResponse) (which : Nat) :
    variant_impl_load S which = S[which]? := by
  induction S generalizing which with
  | nil => simp [variant_impl_load]
  | cons head tail ih =>
    cases which with
    | zero => simp [variant_impl_load]
    | succ n => simp [variant_impl_load, ih]

/-- The type list holds nine types, so the constant last is 8. -/
theorem last_eq : last = 8 := by
  decide

/-- The loaded index is the status index clamped to last. -/
theorem loadIndex_eq_min (which : Nat) : loadIndex which = min which 8 := by
  unfold loadIndex
  rw [last_eq]
  split <;> omega

/-- The lazy initialiser always materialises a variant. -/
theorem loadVariant_isSome (index : Nat → Nat) (ar : ToriiResponse) :
    ∃ v, loadVariant index ar = some v := by
  unfold loadVariant
  simp only [variant_impl_load_eq_getElem?]
  have hlt : loadIndex (index ar.tx_status) < ProtoResponseListType.length := by
    rw [loadIndex_eq_min]
    have : ProtoResponseListType.length = 9 := by decide
    omega
  exact ⟨ProtoResponseListType[loadIndex (index ar.tx_status)], List.getElem?_eq_getElem hlt⟩

/-- Every wire message gives a transaction response. -/
theorem mkTransactionResponse_isSome (index : Nat → Nat) (ar : ToriiResponse) :
    ∃ r, mkTransactionResponse index ar = some r ∧ r.proto_ = ar := by
  obtain ⟨v, hv⟩ := loadVariant_isSome index ar
  unfold mkTransactionResponse
  split
  · exact ⟨_, rfl, rfl⟩
  · next hnone => rw [hv] at hnone; cases hnone

/-- The ranks of two responses agree only when the responses are of the same kind. -/
theorem rank_injective : Function.Injective rank := by
  intro a b hab
  cases a <;> cases b <;> first | rfl | (simp [rank] at hab)

/-- C3: comparePriorities returns -1 when the priority of this response is less than the
other one, 0 when the two priorities are equal and 1 when it is greater, and it returns
no other value. -/
theorem comparePriorities_sign {index : Nat → Nat} (a b : TransactionResponse index) :
    (a.priority < b.priority → a.comparePriorities b = -1)
    ∧ (a.priority = b.priority → a.comparePriorities b = 0)
    ∧ (a.priority > b.priority → a.comparePriorities b = 1)
    ∧ (a.comparePriorities b = -1 ∨ a.comparePriorities b = 0 ∨ a.comparePriorities b = 1) := by
  unfold TransactionResponse.comparePriorities
  refine ⟨?_, ?_, ?_, ?_⟩
  · intro hlt
    simp [hlt]
  · intro heq
    simp [heq]
  · intro hgt
    have h1 : ¬ a.priority < b.priority := by omega
    have h2 : ¬ a.priority = b.priority := by omega
    simp [h1, h2]
  · by_cases hlt : a.priority < b.priority
    · simp [hlt]
    · by_cases heq : a.priority = b.priority
      · simp [heq]
      · simp [hlt, heq]

/-- C8: the index handed to the variant loader is the minimum of the status index and 8;
it always lies within the nine-type list, a status index from 0 to 8 selects the type at
that position of the list, and every larger status index selects the last type,
MstPassedResponse. -/
theorem loadIndex_within_type_list (index : Nat → Nat) (ar : ToriiResponse) :
    loadIndex (index ar.tx_status) = min (index ar.tx_status) 8
    ∧ loadIndex (index ar.tx_status) ≤ 8
    ∧ ProtoResponseListType.length = 9
    ∧ loadIndex (index ar.tx_status) < ProtoResponseListType.length
    ∧ (index ar.tx_status ≤ 8 →
        ∃ t, ProtoResponseListType[index ar.tx_status]? = some t
          ∧ loadVariant index ar = some t)
    ∧ (8 < index ar.tx_status → loadVariant index ar = some MstPassedResponse)
    ∧ ProtoResponseListType[8]? = some MstPassedResponse := by
  have hmin := loadIndex_eq_min (index ar.tx_status)
  have hlen : ProtoResponseListType.length = 9 := by decide
  refine ⟨hmin, by omega, hlen, by omega, ?_, ?_, by decide⟩
  · intro hle
    have hidx : loadIndex (index ar.tx_status) = index ar.tx_status := by omega
    have hlt : index ar.tx_status < ProtoResponseListType.length := by omega
    refine ⟨ProtoResponseListType[index ar.tx_status], List.getElem?_eq_getElem hlt, ?_⟩
    unfold loadVariant
    simp only [variant_impl_load_eq_getElem?, hidx]
    exact List.getElem?_eq_getElem hlt
  · intro hgt
    have hidx : loadIndex (index ar.tx_status) = 8 := by omega
    unfold loadVariant
    simp only [hidx]
    decide

/-- C9: priority is defined on all nine response kinds with the ranks StatelessValid 1,
MstPending 2, MstPassed 3, StatefulValid 4, Committed 5, StatelessFailed 6,
StatefulFailed 7, MstExpired 8, NotReceived 9, a strict chain of pairwise distinct ranks;
so comparePriorities returns 0 exactly when both responses hold the same kind. -/
theorem priority_strict_chain {index : Nat → Nat} :
    (rank StatelessValidTxResponse = 1 ∧ rank MstPendingResponse = 2
      ∧ rank MstPassedResponse = 3 ∧ rank StatefulValidTxResponse = 4
      ∧ rank CommittedTxResponse = 5 ∧ rank StatelessFailedTxResponse = 6
      ∧ rank StatefulFailedTxResponse = 7 ∧ rank MstExpiredResponse = 8
      ∧ rank NotReceivedTxResponse = 9)
    ∧ (rank StatelessValidTxResponse < rank MstPendingResponse
      ∧ rank MstPendingResponse < rank MstPassedResponse
      ∧ rank MstPassedResponse < rank StatefulValidTxResponse
      ∧ rank StatefulValidTxResponse < rank CommittedTxResponse
      ∧ rank CommittedTxResponse < rank StatelessFailedTxResponse
      ∧ rank StatelessFailedTxResponse < rank StatefulFailedTxResponse
      ∧ rank StatefulFailedTxResponse < rank MstExpiredResponse
      ∧ rank MstExpiredResponse < rank NotReceivedTxResponse)
    ∧ (∀ k : TxResponse, 1 ≤ rank k ∧ rank k ≤ 9)
    ∧ (∀ k l : TxResponse, rank k = rank l → k = l)
    ∧ (∀ a b : TransactionResponse index,
        (a.priority = rank a.variant_)
        ∧ (a.comparePriorities b = 0 ↔ a.variant_ = b.variant_)) := by
  refine ⟨by decide, by decide, ?_, ?_, ?_⟩
  · intro k
    cases k <;> decide
  · intro k l hkl
    exact rank_injective hkl
  · intro a b
    refine ⟨rfl, ?_⟩
    unfold TransactionResponse.comparePriorities TransactionResponse.priority
    constructor
    · intro h0
      by_cases hlt : rank a.variant_ < rank b.variant_
      · simp [hlt] at h0
      · by_cases heq : rank a.variant_ = rank b.variant_
        · exact rank_injective heq
        · simp [hlt, heq] at h0
    · intro hv
      simp [hv]

end shared_model.proto

/-! ## Properties of the ordering wiring -/

namespace iroha.network

/-- Unfolding of createGate on a transport reference that designates an object. -/
theorem createGate_eq (h : Heap) (transport : Ref) (t : OrderingGateTransport)
    (ht : h.transports[transport]? = some t) :
    createGate h transport =
      (Except.ok h.gates.length,
       { transports := h.transports.set transport
           { network_address := t.network_address,
             subscribers := t.subscribers ++ [h.gates.length] },
         gates := h.gates ++ [{ transport := transport }],
         services := h.services }) := by
  simp [createGate, make_shared_gate, subscribe, ht]

/-- The address lookup succeeds exactly on a present, non-empty peer list, with the
address of the first peer. -/
theorem lookupAddress_ok_iff (wsv : PeerQuery) (a : String) :
    lookupAddress wsv = Behaviour.defined (Except.ok a) ↔
      ∃ p rest, wsv.getLedgerPeers = some (p :: rest) ∧ p.address = a := by
  unfold lookupAddress
  cases hq : wsv.getLedgerPeers with
  | none => simp [value]
  | some peers =>
    cases peers with
    | nil => simp [value, front]
    | cons p rest => simp [value, front]

/-- Unfolding of initOrderingGate after a successful address lookup. -/
theorem initOrderingGate_eq (h : Heap) (self : OrderingInit) (wsv : PeerQuery)
    (max_size delay_milliseconds : Nat) (a : String)
    (ha : lookupAddress wsv = Behaviour.defined (Except.ok a)) :
    initOrderingGate h self wsv max_size delay_milliseconds =
      Behaviour.defined
        (Except.ok h.gates.length,
         { transports := h.transports ++
             [{ network_address := a, subscribers := [h.gates.length] }],
           gates := h.gates ++ [{ transport := h.transports.length }],
           services := h.services ++
             [{ wsv := wsv, max_size := max_size,
                delay_milliseconds := delay_milliseconds }] },
         { ordering_gate := some h.gates.length,
           ordering_service := some h.services.length,
           ordering_gate_transport := some h.transports.length }) := by
  have hc := createGate_eq
    { transports := h.transports ++ [{ network_address := a, subscribers := [] }],
      gates := h.gates,
      services := h.services ++
        [{ wsv := wsv, max_size := max_size, delay_milliseconds := delay_milliseconds }] }
    h.transports.length { network_address := a, subscribers := [] } (by simp)
  simp only [initOrderingGate, ha, make_shared_transport, createService, make_shared_service, hc]
  simp

/-- C6: createGate on a transport returns a gate constructed over that same transport,
a newly allocated object; during the call exactly one subscription is made, of the
returned gate to that transport, and no other transport, gate or service changes. When
the earlier subscribers are existing gates the returned gate is subscribed exactly
once. -/
theorem createGate_subscribes_returned_gate (h : Heap) (transport : Ref)
    (t : OrderingGateTransport) (ht : h.transports[transport]? = some t) :
    ∃ gate h',
      createGate h transport = (Except.ok gate, h')
      ∧ h.gates[gate]? = none
      ∧ h'.gates = h.gates ++ [{ transport := transport }]
      ∧ h'.gates[gate]? = some { transport := transport }
      ∧ h'.services = h.services
      ∧ h'.transports[transport]? =
          some { network_address := t.network_address,
                 subscribers := t.subscribers ++ [gate] }
      ∧ (∀ r, r ≠ transport → h'.transports[r]? = h.transports[r]?)
      ∧ h'.transports.length = h.transports.length
      ∧ ((∀ g ∈ t.subscribers, g < h.gates.length) →
          (t.subscribers ++ [gate]).count gate = 1) := by
  have hlt : transport < h.transports.length := (List.getElem?_eq_some.1 ht).1
  refine ⟨h.gates.length, _, createGate_eq h transport t ht, ?_, rfl, ?_, rfl, ?_, ?_, ?_, ?_⟩
  · simp
  · simp
  · simp [List.getElem?_set, hlt]
  · intro r hr
    simp [List.getElem?_set, Ne.symm hr]
  · simp
  · intro hwf
    have hnot : h.gates.length ∉ t.subscribers := by
      intro hmem
      exact Nat.lt_irrefl _ (hwf _ hmem)
    simp [List.count_append, List.count_eq_zero_of_not_mem hnot]

/-- C7: on a present, non-empty peer list initOrderingGate builds the gate transport
with the address of the first peer, stores it and returns a gate over it; the gate, the
transports, the gates and the stored references are the same for every peer query whose
first peer has that address, whatever the later peers are. -/
theorem initOrderingGate_uses_first_peer (h : Heap) (self : OrderingInit) (wsv : PeerQuery)
    (max_size delay_milliseconds : Nat) (p : Peer) (rest : List Peer)
    (hp : wsv.getLedgerPeers = some (p :: rest)) :
    ∃ gate t h' self',
      initOrderingGate h self wsv max_size delay_milliseconds
        = Behaviour.defined (Except.ok gate, h', self')
      ∧ self'.ordering_gate_transport = some t
      ∧ h.transports[t]? = none
      ∧ h'.transports[t]? = some { network_address := p.address, subscribers := [gate] }
      ∧ self'.ordering_gate = some gate
      ∧ h'.gates[gate]? = some { transport := t }
      ∧ (∀ (wsv2 : PeerQuery) (p2 : Peer) (rest2 : List Peer),
          wsv2.getLedgerPeers = some (p2 :: rest2) → p2.address = p.address →
            ∃ h2,
              initOrderingGate h self wsv2 max_size delay_milliseconds
                = Behaviour.defined (Except.ok gate, h2, self')
              ∧ h2.transports = h'.transports ∧ h2.gates = h'.gates) := by
  have ha : lookupAddress wsv = Behaviour.defined (Except.ok p.address) :=
    (lookupAddress_ok_iff wsv p.address).2 ⟨p, rest, hp, rfl⟩
  refine ⟨h.gates.length, h.transports.length, _, _,
    initOrderingGate_eq h self wsv max_size delay_milliseconds p.address ha,
    rfl, ?_, ?_, rfl, ?_, ?_⟩
  · simp
  · simp
  · simp
  · intro wsv2 p2 rest2 hp2 haddr
    have ha2 : lookupAddress wsv2 = Behaviour.defined (Except.ok p.address) :=
      (lookupAddress_ok_iff wsv2 p.address).2 ⟨p2, rest2, hp2, haddr⟩
    exact ⟨_, initOrderingGate_eq h self wsv2 max_size delay_milliseconds p.address ha2,
      rfl, rfl⟩

/-- C10 as amended: initOrderingGate produces a gate whenever the peer query yields a
present, non-empty peer list: the call does not fail there, and the new transport (built
with the address of the first peer), the new service and the new gate are allocated and
stored in the members. When the peer query yields no value the address lookup fails with
a bad optional access and the store and the members are left as they were (no transport,
service or gate is stored). -/
theorem initOrderingGate_on_peer_list (h : Heap) (self : OrderingInit) (wsv : PeerQuery)
    (max_size delay_milliseconds : Nat) :
    (∀ p rest, wsv.getLedgerPeers = some (p :: rest) →
      (∃ gate t s h' self',
        initOrderingGate h self wsv max_size delay_milliseconds
          = Behaviour.defined (Except.ok gate, h', self')
        ∧ h.gates[gate]? = none ∧ h.transports[t]? = none ∧ h.services[s]? = none
        ∧ h'.transports = h.transports ++ [{ network_address := p.address,
                                             subscribers := [gate] }]
        ∧ h'.services = h.services ++ [{ wsv := wsv, max_size := max_size,
                                         delay_milliseconds := delay_milliseconds }]
        ∧ h'.gates = h.gates ++ [{ transport := t }]
        ∧ h'.transports[t]? = some { network_address := p.address, subscribers := [gate] }
        ∧ h'.services[s]? = some { wsv := wsv, max_size := max_size,
                                   delay_milliseconds := delay_milliseconds }
        ∧ h'.gates[gate]? = some { transport := t }
        ∧ self' = { ordering_gate := some gate, ordering_service := some s,
                    ordering_gate_transport := some t })
      ∧ (∀ e h' self', initOrderingGate h self wsv max_size delay_milliseconds
            ≠ Behaviour.defined (Except.error e, h', self'))
      ∧ initOrderingGate h self wsv max_size delay_milliseconds ≠ Behaviour.undefined)
    ∧ (wsv.getLedgerPeers = none →
        lookupAddress wsv = Behaviour.defined (Except.error Failure.bad_optional_access)
        ∧ initOrderingGate h self wsv max_size delay_milliseconds
            = Behaviour.defined (Except.error Failure.bad_optional_access, h, self)
        ∧ ∀ gate h' self', initOrderingGate h self wsv max_size delay_milliseconds
            ≠ Behaviour.defined (Except.ok gate, h', self')) := by
  refine ⟨?_, ?_⟩
  · intro p rest hq
    have ha : lookupAddress wsv = Behaviour.defined (Except.ok p.address) :=
      (lookupAddress_ok_iff wsv p.address).2 ⟨p, rest, hq, rfl⟩
    have heq := initOrderingGate_eq h self wsv max_size delay_milliseconds p.address ha
    refine ⟨⟨h.gates.length, h.transports.length, h.services.length, _, _, heq,
      ?_, ?_, ?_, rfl, rfl, rfl, ?_, ?_, ?_, rfl⟩, ?_, ?_⟩
    · simp
    · simp
    · simp
    · simp
    · simp
    · simp
    · intro e h' self' herr
      rw [heq] at herr
      cases herr
    · intro hundef
      rw [heq] at hundef
      cases hundef
  · intro hq
    have hl : lookupAddress wsv
        = Behaviour.defined (Except.error Failure.bad_optional_access) := by
      simp [lookupAddress, hq, value]
    have heq : initOrderingGate h self wsv max_size delay_milliseconds
        = Behaviour.defined (Except.error Failure.bad_optional_access, h, self) := by
      simp [initOrderingGate, hl]
    refine ⟨hl, heq, ?_⟩
    intro gate h' self' hok
    rw [heq] at hok
    cases hok

end iroha.network

/-! ## Properties of the on-demand ordering client -/

namespace iroha.ordering.transport

/-- Unfolding of onRequestProposal: the one call issued and the result read off the
answer of the stub. -/
theorem onRequestProposal_eq (client : OnDemandOsClientGrpc) (round : RoundType) :
    client.onRequestProposal round =
      (match client.stub.RequestProposal client.requestContext
          { round := toProposalRound round } with
       | (Status.OK, response) => response.proposal.map Proposal.mk
       | _ => none,
       [Call.RequestProposal client.requestContext { round := toProposalRound round }]) := by
  rcases hcall : client.stub.RequestProposal client.requestContext
      { round := toProposalRound round } with ⟨status, response⟩
  cases status <;> cases hprop : response.proposal <;>
    simp [OnDemandOsClientGrpc.onRequestProposal, hcall, hprop]

/-- C1: onRequestProposal issues exactly one RequestProposal call, and the deadline of its
context is the value of the injected time provider plus the configured timeout, for
every stub (whatever it answers), clock value, timeout and round. -/
theorem onRequestProposal_deadline (stub : Stub) (time_provider : Unit → Int)
    (timeout : Int) (round : RoundType) :
    ∃ request,
      (OnDemandOsClientGrpc.onRequestProposal
          { stub := stub, time_provider := time_provider,
            proposal_request_timeout := timeout } round).2
        = [Call.RequestProposal { deadline := time_provider () + timeout } request] := by
  refine ⟨{ round := toProposalRound round }, ?_⟩
  rw [onRequestProposal_eq]
  rfl

/-- C2: when the stub answers the request with status OK and a response, the result of
onRequestProposal is present exactly when the response carries a proposal; a present
result wraps that proposal, with the same transactions in the same order; a response
without proposal gives the empty optional; one call is issued, with no retry. -/
theorem onRequestProposal_surfaces_response (client : OnDemandOsClientGrpc)
    (round : RoundType) (response : ProposalResponse)
    (hok : client.stub.RequestProposal client.requestContext
        { round := toProposalRound round } = (Status.OK, response)) :
    ((client.onRequestProposal round).1.isSome ↔ response.proposal.isSome)
    ∧ (∀ p, (client.onRequestProposal round).1 = some p →
        ∃ wire, response.proposal = some wire
          ∧ p.getTransport = wire
          ∧ p.transactions.map Transaction.getTransport = wire.transactions
          ∧ p.transactions.length = wire.transactions.length)
    ∧ (response.proposal = none → (client.onRequestProposal round).1 = none)
    ∧ (client.onRequestProposal round).2.length = 1 := by
  have hres : (client.onRequestProposal round).1 = response.proposal.map Proposal.mk := by
    rw [onRequestProposal_eq]
    simp only [hok]
  refine ⟨?_, ?_, ?_, ?_⟩
  · rw [hres]
    cases response.proposal <;> simp
  · intro p hp
    rw [hres] at hp
    cases hprop : response.proposal with
    | none => simp [hprop] at hp
    | some wire =>
      simp only [hprop, Option.map_some', Option.some.injEq] at hp
      subst hp
      refine ⟨wire, rfl, rfl, ?_, ?_⟩
      · simp [Proposal.transactions, List.map_map, Function.comp_def]
      · simp [Proposal.transactions]
  · intro hnone
    rw [hres, hnone]
    rfl
  · rw [onRequestProposal_eq]
    rfl

/-- C4: the request built by onTransactions and the request built by onRequestProposal
both carry the first component of the given round as block_round and the second as
reject_round. -/
theorem requests_carry_round (client : OnDemandOsClientGrpc) (round : RoundType)
    (collection : List Transaction) :
    (∃ request,
        client.onTransactions round collection = [Call.AsyncSendTransactions request]
        ∧ request.round.block_round = round.1
        ∧ request.round.reject_round = round.2)
    ∧ (∃ context request,
        (client.onRequestProposal round).2 = [Call.RequestProposal context request]
        ∧ request.round.block_round = round.1
        ∧ request.round.reject_round = round.2) := by
  refine ⟨⟨_, rfl, rfl, rfl⟩, ⟨client.requestContext, { round := toProposalRound round }, ?_, rfl, rfl⟩⟩
  rw [onRequestProposal_eq]

/-- C5: for a non-empty collection, onTransactions sends one TransactionsRequest whose
transactions are the wire forms of the transactions of the collection, as many and in
the same order; transaction i of the request is transaction i of the collection and has
its creator account id. -/
theorem onTransactions_sends_collection (client : OnDemandOsClientGrpc) (round : RoundType)
    (collection : List Transaction) (hne : collection ≠ []) :
    ∃ request,
      client.onTransactions round collection = [Call.AsyncSendTransactions request]
      ∧ request.transactions = collection.map Transaction.getTransport
      ∧ request.transactions.length = collection.length
      ∧ 0 < request.transactions.length
      ∧ (∀ (i : Nat) (tx : Transaction), collection[i]? = some tx →
          request.transactions[i]? = some tx.getTransport
          ∧ (request.transactions[i]?.map
                fun (w : iroha.protocol.Transaction) =>
                  w.payload.reduced_payload.creator_account_id)
              = some tx.creatorAccountId) := by
  refine ⟨_, rfl, rfl, by simp, ?_, ?_⟩
  · simp only [List.length_map]
    exact List.length_pos.2 hne
  · intro i tx hi
    simp [List.getElem?_map, hi, Transaction.creatorAccountId]

end iroha.ordering.transport

/-! ## The theorems at concrete inputs -/

namespace shared_model.proto

open TxResponse

/-- C3 at two responses: a stateless valid response ranks below a committed one, and a
committed one above it. -/
theorem comparePriorities_sign_witness :
    statelessValidResponse.comparePriorities committedResponse = -1
    ∧ committedResponse.comparePriorities statelessValidResponse = 1 :=
  ⟨(comparePriorities_sign statelessValidResponse committedResponse).1 (by decide),
   (comparePriorities_sign committedResponse statelessValidResponse).2.2.1 (by decide)⟩

/-- C8 at status index 12: the loaded index is 8 and the variant is MstPassedResponse. -/
theorem loadIndex_within_type_list_witness :
    loadIndex 12 = min 12 8
    ∧ loadVariant (fun n => n) beyondListMessage = some MstPassedResponse :=
  ⟨(loadIndex_within_type_list (fun n => n) beyondListMessage).1,
   (loadIndex_within_type_list (fun n => n) beyondListMessage).2.2.2.2.2.1 (by decide)⟩

/-- C9 at two responses of different status index 12 and 8: both hold MstPassedResponse
and compare equal. -/
theorem priority_strict_chain_witness :
    beyondListResponse.comparePriorities mstPassedResponse = 0 :=
  ((priority_strict_chain.2.2.2.2 beyondListResponse mstPassedResponse).2).2 rfl

end shared_model.proto

namespace iroha.network

/-- C6 at a store with one transport: the first gate is created over transport 0 and is
its only subscriber, subscribed once. -/
theorem createGate_subscribes_returned_gate_witness :
    exampleHeap.transports[0]? =
        some { network_address := "127.0.0.1:10001", subscribers := [] }
    ∧ ∃ gate h',
        createGate exampleHeap 0 = (Except.ok gate, h')
        ∧ h'.gates[gate]? = some { transport := 0 }
        ∧ h'.transports[0]? =
            some { network_address := "127.0.0.1:10001", subscribers := [] ++ [gate] }
        ∧ (([] : List Ref) ++ [gate]).count gate = 1 := by
  refine ⟨rfl, ?_⟩
  obtain ⟨gate, h', hcall, _, _, hgate, _, hsub, _, _, hcount⟩ :=
    createGate_subscribes_returned_gate exampleHeap 0
      { network_address := "127.0.0.1:10001", subscribers := [] } rfl
  exact ⟨gate, h', hcall, hgate, hsub, hcount (by simp)⟩

/-- C7 at a ledger of two peers: the transport is built with the address of the first
peer. -/
theorem initOrderingGate_uses_first_peer_witness :
    twoPeers.getLedgerPeers =
        some ({ address := "127.0.0.1:10001", pubkey := [1] }
              :: [{ address := "127.0.0.1:10002", pubkey := [2] }])
    ∧ ∃ gate t h' self',
        initOrderingGate emptyHeap freshInit twoPeers 10 5000
          = Behaviour.defined (Except.ok gate, h', self')
        ∧ self'.ordering_gate_transport = some t
        ∧ h'.transports[t]? =
            some { network_address := "127.0.0.1:10001", subscribers := [gate] } := by
  refine ⟨rfl, ?_⟩
  obtain ⟨gate, t, h', self', hcall, htransport, _, haddress, _, _, _⟩ :=
    initOrderingGate_uses_first_peer emptyHeap freshInit twoPeers 10 5000
      { address := "127.0.0.1:10001", pubkey := [1] }
      [{ address := "127.0.0.1:10002", pubkey := [2] }] rfl
  exact ⟨gate, t, h', self', hcall, htransport, haddress⟩

end iroha.network

namespace iroha.ordering.transport

/-- C2 at the input of the test onRequestProposal: the stub answers OK with a proposal
of one transaction, and the result is present with that transaction. -/
theorem onRequestProposal_surfaces_response_witness :
    (testClient testResponse).stub.RequestProposal (testClient testResponse).requestContext
        { round := toProposalRound (1, 1) } = (Status.OK, testResponse)
    ∧ (((testClient testResponse).onRequestProposal (1, 1)).1.isSome
        ↔ testResponse.proposal.isSome)
    ∧ ((testClient testResponse).onRequestProposal (1, 1)).2.length = 1 := by
  have h := onRequestProposal_surfaces_response (testClient testResponse) (1, 1)
    testResponse rfl
  exact ⟨rfl, h.1, h.2.2.2⟩

/-- C5 at the input of the test onTransactions: a collection of one transaction created
by the account test. -/
theorem onTransactions_sends_collection_witness :
    [Transaction.mk (testTransaction "test")] ≠ []
    ∧ ∃ request,
        (testClient testResponseNone).onTransactions (0, 0)
            [Transaction.mk (testTransaction "test")]
          = [Call.AsyncSendTransactions request]
        ∧ request.transactions = [testTransaction "test"] := by
  refine ⟨List.cons_ne_nil _ _, ?_⟩
  obtain ⟨request, hcall, htxs, _⟩ :=
    onTransactions_sends_collection (testClient testResponseNone) (0, 0)
      [Transaction.mk (testTransaction "test")] (List.cons_ne_nil _ _)
  exact ⟨request, hcall, htxs⟩

end iroha.ordering.transport

namespace iroha.network

/-- C10 as stated fails at a present but empty peer list: front() is called on the empty
vector, the call has no defined behaviour, and so it is not a failure of the lookup that
leaves the store and the members as they were. -/
theorem initOrderingGate_empty_list_not_failure :
    initOrderingGate emptyHeap freshInit { getLedgerPeers := some [] } 10 5000
      = Behaviour.undefined
    ∧ ¬ ∃ e, initOrderingGate emptyHeap freshInit { getLedgerPeers := some [] } 10 5000
        = Behaviour.defined (Except.error e, emptyHeap, freshInit) := by
  have hundef : initOrderingGate emptyHeap freshInit { getLedgerPeers := some [] } 10 5000
      = Behaviour.undefined := rfl
  refine ⟨hundef, ?_⟩
  rintro ⟨e, he⟩
  rw [hundef] at he
  cases he

/-- C10 as amended, at a ledger of two peers and at a peer query without value: the
first call stores transport 0, service 0 and gate 0, the second stores nothing. -/
theorem initOrderingGate_on_peer_list_witness :
    (∃ gate t s h' self',
      initOrderingGate emptyHeap freshInit twoPeers 10 5000
        = Behaviour.defined (Except.ok gate, h', self')
      ∧ h'.transports[t]? = some { network_address := "127.0.0.1:10001",
                                   subscribers := [gate] }
      ∧ h'.services[s]? = some { wsv := twoPeers, max_size := 10,
                                 delay_milliseconds := 5000 }
      ∧ h'.gates[gate]? = some { transport := t }
      ∧ self' = { ordering_gate := some gate, ordering_service := some s,
                  ordering_gate_transport := some t })
    ∧ initOrderingGate emptyHeap freshInit { getLedgerPeers := none } 10 5000
        = Behaviour.defined (Except.error Failure.bad_optional_access, emptyHeap,
            freshInit) := by
  refine ⟨?_, ?_⟩
  · obtain ⟨⟨gate, t, s, h', self', hcall, _, _, _, _, _, _, ht, hs, hg, hself⟩, _, _⟩ :=
      (initOrderingGate_on_peer_list emptyHeap freshInit twoPeers 10 5000).1
        { address := "127.0.0.1:10001", pubkey := [1] }
        [{ address := "127.0.0.1:10002", pubkey := [2] }] rfl
    exact ⟨gate, t, s, h', self', hcall, ht, hs, hg, hself⟩
  · exact ((initOrderingGate_on_peer_list emptyHeap freshInit
      { getLedgerPeers := none } 10 5000).2 rfl).2.1

end iroha.network

namespace iroha.ordering.transport

/-- C1 at the input of the test onRequestProposal: time point 0, timeout 1, round (1, 1). -/
theorem onRequestProposal_deadline_witness :
    ∃ request,
      ((testClient testResponse).onRequestProposal (1, 1)).2
        = [Call.RequestProposal { deadline := 0 + 1 } request] :=
  onRequestProposal_deadline (testStub testResponse) (fun _ => 0) 1 (1, 1)

/-- C4 at the round (1, 1) of the client test. -/
theorem requests_carry_round_witness :
    ∃ context request,
      ((testClient testResponseNone).onRequestProposal (1, 1)).2
        = [Call.RequestProposal context request]
      ∧ request.round.block_round = 1
      ∧ request.round.reject_round = 1 :=
  (requests_carry_round (testClient testResponseNone) (1, 1) []).2

end iroha.ordering.transport
